import Mathlib

/-!
Shallow embedding of the agent-proof CLI (TypeScript) used to check its
natural-language specification.

Embedded source files:
- src/unnamed/part_001            : the implemented create command
- src/src/scripts/setup-schema.ts : the credential-creation setup step
- src/src/lib/sas-client.ts       : SASClient.createSchema, sendTransaction
                                    (compute-unit sizing) and the cached
                                    getClient handle of the client module
- src/src/lib/config.ts           : CONFIG constants and the implemented
                                    verify command

External collaborators (sas-lib PDA derivation, node crypto SHA-256, the RPC
transport) are out of scope of the repository and are represented by abstract
but executable stand-ins: PDA derivation is a pure, deterministic,
collision-free map, modelled by the constructors of the inductive Address
type; transaction submission is modelled by its documented effect on the
account map.
-/

namespace AgentProof

/-- Addresses: base public keys plus the program-derived addresses (PDAs) of
sas-lib (deriveCredentialPda, deriveSchemaPda, deriveAttestationPda,
deriveSchemaMintPda, deriveAttestationMintPda, findAssociatedTokenPda,
deriveSasAuthorityAddress). Each derivation is one constructor, so derivation
is deterministic and distinct inputs give distinct addresses, which is what
the external addressing scheme guarantees by construction. -/
inductive Address where
  | base (key : String)
  | credentialPda (authority : Address) (name : String)
  | schemaPda (credential : Address) (name : String) (version : ℕ)
  | attestationPda (credential : Address) (schema : Address) (nonce : Address)
  | schemaMintPda (schema : Address)
  | attestationMintPda (attestation : Address)
  | associatedTokenPda (mint : Address) (owner : Address)
  | sasAuthority
  deriving DecidableEq

/-- Digest produced by the external SHA-256 (node crypto, createHash). No
claim depends on actual digest values, so a digest is represented by a tag
recording the hashed text. A hex digest has exactly 64 characters, so the
substring(0, 64) applied to it in the create command is the identity and is
absorbed here. -/
structure Digest where
  ofText : String
  deriving DecidableEq

/-- Model of createHash("sha256").update(claim).digest("hex"). -/
def sha256hex (claim : String) : Digest := ⟨claim⟩

/-- Attestation payload of the create command (config.ts: SCHEMA_FIELDS
agent_name, proof_hash, model_id). Serialization and deserialization against
the schema layout are delegated to sas-lib and modelled as the identity on
this record. -/
structure AttestationData where
  agent_name : String
  proof_hash : Digest
  model_id : String
  deriving DecidableEq

/-- On-chain schema account contents as used by this code base (fetched by
sas-lib fetchSchema: layout, field names, paused flag). -/
structure SchemaAccount where
  credential : Address
  name : String
  version : ℕ
  layout : List ℕ
  fieldNames : List String
  isPaused : Bool
  deriving DecidableEq

/-- On-chain attestation account contents (sas-lib fetchAttestation gives
credential, schema, nonce, data, expiry). -/
structure AttestationAccount where
  credential : Address
  schema : Address
  nonce : Address
  data : AttestationData
  expiry : ℤ
  deriving DecidableEq

/-- An account stored on chain at some address. -/
inductive Account where
  | credentialAcc (authority : Address) (name : String) (signers : List Address)
  | schemaAcc (s : SchemaAccount)
  | attestationAcc (a : AttestationAccount)
  | mintAcc (mint : Address)
  deriving DecidableEq

/-- The on-chain state visible through getAccountInfo: a partial map from
addresses to accounts. -/
def Chain := Address → Option Account

/-- Effect of a confirmed transaction that creates an account. -/
def Chain.set (st : Chain) (a : Address) (acc : Account) : Chain :=
  fun x => if x = a then some acc else st x

/-- Chain with no accounts at all. -/
def emptyChain : Chain := fun _ => none

/-- config.ts CONFIG.CREDENTIAL_NAME. -/
def CONFIG_CREDENTIAL_NAME : String := "AGENT-PROOF"

/-- Deployed credential address (CONFIG.CREDENTIAL_ADDRESS, populated after
deployment; the value recorded by the setup run in addresses.json). -/
def CONFIG_CREDENTIAL : Address := Address.base "Gk1T6Fw8FmRz4Gd5dHnBgKRbPfBb8yTxRAnGe9vmG9ei"

/-- Deployed schema address (CONFIG.SCHEMA_ADDRESS). -/
def CONFIG_SCHEMA : Address := Address.base "6TPGn6rpWNkkg33hyFDH8rhFDfZxtmr9pXbzYSU93TtT"

/-- Deployed collection mint address (CONFIG.SCHEMA_MINT_ADDRESS). -/
def CONFIG_SCHEMA_MINT : Address := Address.base "J8HgYgt4sUVUpfaqPXyFjwtCpy3YGiyEZ41v1DS2ubwJ"

/-- config.ts CONFIG.SCHEMA_LAYOUT bytes: [12, 32, 8, 32, 12, 32]. -/
def CONFIG_SCHEMA_LAYOUT : List ℕ := [12, 32, 8, 32, 12, 32]

/-- config.ts CONFIG.SCHEMA_FIELDS. -/
def CONFIG_SCHEMA_FIELDS : List String := ["agent_name", "proof_hash", "model_id"]

/-- config.ts CONFIG.SCHEMA_DESCRIPTION. -/
def CONFIG_SCHEMA_DESCRIPTION : String :=
  "Agent identity proof schema - verifiable AI agent existence"

/-- JavaScript s.substring(0, n): the first n units of the string (the whole
string when it is shorter). Code points stand in for UTF-16 units. -/
def jsSubstring (s : String) (n : ℕ) : String := String.mk (s.data.take n)

/-- Options of the create command (src/unnamed/part_001). The model option
defaults to "unknown" and the expiry option to "365" at the CLI layer
(commander defaults); an omitted expiry flag is none here and
parseInt(options.expiry, 10) of the default is 365. -/
structure CreateOptions where
  name : String
  claim : String
  model : String := "unknown"
  expiry : Option ℕ := none
  json : Bool := false

/-- Outcome of one create invocation. The validationError constructor is the
ValidationError of the specification error taxonomy; it is part of the
outcome type so that claims about it can be stated, and the embedded code
never produces it. uncaughtError models an exception (such as a failed
fetchSchema) escaping the command action. -/
inductive CreateOutcome where
  | created (attestation : Address) (mint : Address)
  | alreadyExists (attestation : Address)
  | validationError (field : String) (bound : ℕ)
  | uncaughtError (msg : String)
  deriving DecidableEq

/-- Whether an outcome is a ValidationError. -/
def CreateOutcome.isValidationErr : CreateOutcome → Bool
  | .validationError _ _ => true
  | _ => false

/-- Result of one create invocation: outcome, whether a transaction was
submitted, and the resulting chain. -/
structure CreateResult where
  outcome : CreateOutcome
  txSubmitted : Bool
  chain : Chain

/-- Attestation PDA used by the create command: deriveAttestationPda with the
configured credential and schema and with nonce equal to the payer address
(part_001 line 98: nonce: payer.address, one proof per agent). -/
def attestationPdaOf (payer : Address) : Address :=
  Address.attestationPda CONFIG_CREDENTIAL CONFIG_SCHEMA payer

/-- The create command of src/unnamed/part_001, with nowMs the value of
Date.now() in milliseconds. Keypair loading, the balance check and the
devnet airdrop are omitted: they touch no attestation account. Steps, in
source order: fetch the configured schema (a throw escapes the action),
derive the attestation and mint PDAs, check getAccountInfo at the attestation
PDA and return the already-exists report without submitting when an account
is present, otherwise build the payload (name and model truncated by
substring(0, 32), claim hashed), compute the expiry timestamp and submit the
tokenized-attestation instruction, whose confirmed effect creates the
attestation and mint accounts. -/
def createCommand (st : Chain) (payer : Address) (o : CreateOptions) (nowMs : ℕ) :
    CreateResult :=
  match st CONFIG_SCHEMA with
  | some (Account.schemaAcc _) =>
    let attestation := attestationPdaOf payer
    let mint := Address.attestationMintPda attestation
    match st attestation with
    | some _ => ⟨CreateOutcome.alreadyExists attestation, false, st⟩
    | none =>
      let data : AttestationData :=
        ⟨jsSubstring o.name 32, sha256hex o.claim, jsSubstring o.model 32⟩
      let expiryDays := o.expiry.getD 365
      let expiryTs : ℤ := (nowMs / 1000 + expiryDays * (24 * 60 * 60) : ℕ)
      let st2 :=
        (st.set attestation
          (Account.attestationAcc ⟨CONFIG_CREDENTIAL, CONFIG_SCHEMA, payer, data, expiryTs⟩)).set
          mint (Account.mintAcc mint)
      ⟨CreateOutcome.created attestation mint, true, st2⟩
  | _ => ⟨CreateOutcome.uncaughtError "could not find account", false, st⟩

/-- Agent name stored in the attestation account at an address, when any. -/
def getAttName (st : Chain) (a : Address) : Option String :=
  match st a with
  | some (Account.attestationAcc acc) => some acc.data.agent_name
  | _ => none

/-- Expiry stored in the attestation account at an address, when any. -/
def getAttExpiry (st : Chain) (a : Address) : Option ℤ :=
  match st a with
  | some (Account.attestationAcc acc) => some acc.expiry
  | _ => none

/-- Result of one setup step of setup-schema.ts: whether the step skipped
because the account already existed, whether a transaction was submitted, and
the resulting chain. -/
structure StepResult where
  skipped : Bool
  txSubmitted : Bool
  chain : Chain

/-- Step 1 of setup-schema.ts main: derive the credential PDA from the
authority and the credential name, check getAccountInfo, skip with a no-op
success when the account exists, otherwise submit the create-credential
instruction (signers: the authority itself). -/
def setupCredentialStep (st : Chain) (authority : Address) : StepResult :=
  let credentialPda := Address.credentialPda authority CONFIG_CREDENTIAL_NAME
  match st credentialPda with
  | some _ => ⟨true, false, st⟩
  | none =>
    ⟨false, true,
      st.set credentialPda
        (Account.credentialAcc authority CONFIG_CREDENTIAL_NAME [authority])⟩

/-- SchemaConfig of sas-client.ts (version is optional and defaults to 1 at
the use site: config.version ?? 1). -/
structure SchemaConfig where
  credentialName : String
  name : String
  description : String
  layout : List ℕ
  fieldNames : List String
  version : Option ℕ := none

/-- Fields of the getCreateSchemaInstruction call built by createSchema. -/
structure CreateSchemaIx where
  name : String
  description : String
  layout : List ℕ
  fieldNames : List String
  credential : Address
  schema : Address
  deriving DecidableEq

/-- Outcome of createSchema. The validationError constructor belongs to the
specification error taxonomy; the embedded code never produces it. -/
inductive SchemaOutcome where
  | submitted (ix : CreateSchemaIx)
  | validationError (msg : String)
  deriving DecidableEq

/-- Whether a schema outcome is a ValidationError. -/
def SchemaOutcome.isValidationErr : SchemaOutcome → Bool
  | .validationError _ => true
  | _ => false

/-- Result of createSchema. -/
structure SchemaResult where
  outcome : SchemaOutcome
  txSubmitted : Bool
  chain : Chain

/-- SASClient.createSchema (sas-client.ts lines 164-181): derive the
credential PDA from the signer and the credential name, derive the schema PDA
(version ?? 1), build getCreateSchemaInstruction from the given layout and
field names, and submit it through sendTransaction. No check of any kind is
performed before submission. -/
def createSchema (st : Chain) (authority : Address) (config : SchemaConfig) :
    SchemaResult :=
  let credential := Address.credentialPda authority config.credentialName
  let schema := Address.schemaPda credential config.name (config.version.getD 1)
  let ix : CreateSchemaIx :=
    ⟨config.name, config.description, config.layout, config.fieldNames, credential, schema⟩
  ⟨SchemaOutcome.submitted ix, true,
    st.set schema
      (Account.schemaAcc
        ⟨credential, config.name, config.version.getD 1, config.layout,
          config.fieldNames, false⟩)⟩

/-- Errors thrown by the external account fetchers (sas-lib fetchAttestation
and fetchSchema over the kit RPC). The source inspects
error.message.includes("could not find account"); that text is carried by the
missing-account error of the external collaborator and by no other error
modelled here. -/
inductive FetchErr where
  | accountNotFound (addr : Address)
  | decodeFailed
  deriving DecidableEq

/-- The includes("could not find account") test of the verify catch block,
evaluated on the modelled errors. -/
def FetchErr.messageIncludesNotFound : FetchErr → Bool
  | .accountNotFound _ => true
  | .decodeFailed => false

/-- sas-lib fetchAttestation: the account at the address decoded as an
attestation; a missing account raises the could-not-find-account error and a
differently shaped account a decode error. -/
def fetchAttestation (st : Chain) (addr : Address) : Except FetchErr AttestationAccount :=
  match st addr with
  | some (Account.attestationAcc a) => Except.ok a
  | some _ => Except.error FetchErr.decodeFailed
  | none => Except.error (FetchErr.accountNotFound addr)

/-- sas-lib fetchSchema, analogous to fetchAttestation. -/
def fetchSchema (st : Chain) (addr : Address) : Except FetchErr SchemaAccount :=
  match st addr with
  | some (Account.schemaAcc s) => Except.ok s
  | some _ => Except.error FetchErr.decodeFailed
  | none => Except.error (FetchErr.accountNotFound addr)

/-- Outcome of the verify command. The crash constructor stands for an
uncaught exception escaping the command; the whole body is wrapped in a
try/catch, so the embedded code never produces it. -/
inductive VerifyOutcome where
  | report (expired : Bool) (paused : Bool) (hasToken : Bool)
  | notFound
  | otherError
  | crash
  deriving DecidableEq

/-- Whether a verify outcome is an uncaught crash. -/
def VerifyOutcome.isCrash : VerifyOutcome → Bool
  | .crash => true
  | _ => false

/-- Result of one verify invocation: outcome, process exit code, and the
human-readable lines written to standard output and standard error (color
codes, icons and address echoes elided; ora spinner messages go to standard
error, console.log to standard output). -/
structure VerifyResult where
  outcome : VerifyOutcome
  exitCode : ℕ
  stdoutLines : List String
  stderrLines : List String

/-- Catch block of the verify command (config.ts lines 170-180): when the
error message includes "could not find account" report that no attestation
was found, otherwise echo the error; either way spinner.fail writes to
standard error and the process exits with code 1. -/
def verifyCatch (e : FetchErr) : VerifyResult :=
  if e.messageIncludesNotFound then
    ⟨VerifyOutcome.notFound, 1,
      ["No attestation found at this address",
        "The address may not have an agent proof, or it may have been revoked."],
      ["Verification failed"]⟩
  else
    ⟨VerifyOutcome.otherError, 1, [], ["Verification failed", "Error:"]⟩

/-- Whether the schema field-name list carries the three fields whose values
the verify report dereferences: the report prints
data.owner_pubkey.slice(0, 24), data.capabilities_hash.slice(0, 24) and
new Date(Number(data.created_at) * 1000).toISOString().
deserializeAttestationData keys its result by the field names of the schema
the attestation was encoded with (verify always fetches that same schema), so
when one of these fields is absent from the schema the corresponding key is
undefined and the first such dereference throws a TypeError inside the try
block. -/
def displayedFieldsPresent (s : SchemaAccount) : Bool :=
  s.fieldNames.contains "owner_pubkey" && s.fieldNames.contains "capabilities_hash" &&
    s.fieldNames.contains "created_at"

/-- The implemented verify command (embedded in src/src/lib/config.ts), with
now the value of BigInt(Math.floor(Date.now() / 1000)) in whole seconds.
Steps, in source order: fetch the attestation at the given address, fetch its
schema, warn when the schema is paused, deserialize the payload, compute
isExpired = currentTimestamp >= attestation.data.expiry, probe the derived
attestation mint for the proof token (a failed probe means no token), then
print the report. When the schema lacks one of the dereferenced display
fields (as the deployed 3-field agent-proof schema does), the printing throws
a TypeError after spinner.succeed; the catch prints the failure and the error
(the TypeError message does not contain "could not find account") and the
process exits with code 1, so no report is produced. Any fetch throw is
handled by the same catch block. -/
def verifyCommand (st : Chain) (addr : Address) (now : ℤ) : VerifyResult :=
  match fetchAttestation st addr with
  | Except.error e => verifyCatch e
  | Except.ok a =>
    match fetchSchema st a.schema with
    | Except.error e => verifyCatch e
    | Except.ok s =>
      let pausedLines :=
        if s.isPaused then ["This agent schema has been paused by the issuer."] else []
      let expired := decide (now ≥ a.expiry)
      let hasToken :=
        match st (Address.attestationMintPda addr) with
        | some (Account.mintAcc _) => true
        | _ => false
      if displayedFieldsPresent s then
        ⟨VerifyOutcome.report expired s.isPaused hasToken, 0,
          pausedLines ++
            ["Agent Proof Verified", if expired then "Expired" else "Valid"],
          ["Verification complete!"]⟩
      else
        ⟨VerifyOutcome.otherError, 1, pausedLines,
          ["Verification complete!", "Verification failed", "Error:"]⟩

/-- Network client handle of the client module embedded in sas-client.ts:
an rpc and an rpc-subscriptions connection, each identified by the URL it was
created from. -/
structure Client where
  rpcUrl : String
  wssUrl : String
  deriving DecidableEq

/-- CONFIG.RPC_URL default. -/
def CONFIG_RPC_URL : String := "https://api.devnet.solana.com"

/-- CONFIG.WSS_URL default. -/
def CONFIG_WSS_URL : String := "wss://api.devnet.solana.com"

/-- The client constructed by getClient on a cache miss:
createSolanaRpc(CONFIG.RPC_URL) and createSolanaRpcSubscriptions(CONFIG.WSS_URL). -/
def mkClient : Client := ⟨CONFIG_RPC_URL, CONFIG_WSS_URL⟩

/-- getClient of the client module: the module-level mutable binding _client
is the explicit state; a call constructs the client exactly when the binding
is empty. The returned Bool records whether this call constructed a new
client. -/
def getClient : Option Client → Client × Option Client × Bool
  | none => (mkClient, some mkClient, true)
  | some c => (c, some c, false)

/-- A sequence of n getClient calls within one process, returning per call
the client handed out and whether that call constructed it, together with the
final state of the module binding. -/
def runGetClient : ℕ → Option Client → List (Client × Bool) × Option Client
  | 0, st => ([], st)
  | n + 1, st =>
    let (c, st1, b) := getClient st
    let (rs, st2) := runGetClient n st1
    ((c, b) :: rs, st2)

/-- Binary64 significand of the JavaScript literal 1.1: the double nearest to
11/10 is M11 / 2 ^ 51. -/
def M11 : ℕ := 2476979795053773

/-- Round the nonnegative rational a / b (b positive) to the nearest integer,
ties to even: the rounding used by IEEE-754 binary64 arithmetic. -/
def roundHalfEven (a b : ℕ) : ℕ :=
  let q := a / b
  let r := a % b
  if 2 * r < b then q
  else if b < 2 * r then q + 1
  else if q % 2 = 0 then q else q + 1

/-- Fuel-driven floor of the base-2 logarithm (structural recursion so that
kernel evaluation reduces it). -/
def log2fuel : ℕ → ℕ → ℕ
  | 0, _ => 0
  | fuel + 1, n => if n < 2 then 0 else log2fuel fuel (n / 2) + 1

/-- Math.ceil(u * 1.1) as JavaScript evaluates it for a nonnegative integer u
(exactly representable in binary64 in the compute-unit range): the exact
product u * M11 / 2 ^ 51 is rounded to the nearest binary64 value (53-bit
significand, ties to even) and the ceiling of that double is taken. -/
def jsCuLimit (u : ℕ) : ℕ :=
  let p := u * M11
  let e := log2fuel 128 (p / 2 ^ 51)
  let significand := roundHalfEven (p * 2 ^ 52) (2 ^ (51 + e))
  if e ≤ 52 then (significand + (2 ^ (52 - e) - 1)) / 2 ^ (52 - e)
  else significand * 2 ^ (e - 52)

/-- Exact ceiling of 11 u / 10, the value the specification ascribes to the
compute-unit limit. -/
def exactCuLimit (u : ℕ) : ℕ := (11 * u + 9) / 10

/-- Instructions as far as the compute-unit claim needs them: the
setComputeUnitLimit instruction and everything else. -/
inductive TxIx where
  | setComputeUnitLimit (units : ℕ)
  | other (tag : ℕ)
  deriving DecidableEq

/-- Compute-unit fields returned by sendTransaction. -/
structure CuTxResult where
  cuUsed : ℕ
  cuLimit : ℕ
  deriving DecidableEq

/-- SASClient.sendTransaction (sas-client.ts lines 329-371), compute-unit
part: simUnits is the unitsConsumed value of the pre-submission simulation
(none when the simulation reports no value). The code takes
cuConsumed = Number(simResult.value.unitsConsumed ?? 200_000),
cuLimit = Math.ceil(cuConsumed * 1.1), prepends
getSetComputeUnitLimitInstruction with that limit to the final transaction,
and returns cuUsed = cuConsumed and cuLimit. -/
def sendTransaction (simUnits : Option ℕ) (instructions : List TxIx) :
    List TxIx × CuTxResult :=
  let cuConsumed := simUnits.getD 200000
  let cuLimit := jsCuLimit cuConsumed
  (TxIx.setComputeUnitLimit cuLimit :: instructions, ⟨cuConsumed, cuLimit⟩)

/-- Expiry timestamp computed by SASClient.createTokenizedAttestation
(sas-client.ts line 238): Math.floor(Date.now() / 1000) plus
expiryDays * 24 * 60 * 60, where the expiryDays parameter defaults to 365. -/
def createTokenizedAttestationExpiry (nowMs : ℕ) (expiryDays : Option ℕ) : ℕ :=
  nowMs / 1000 + (expiryDays.getD 365) * (24 * 60 * 60)

/-- Concrete payer key (the authority recorded by the setup run). -/
def payer0 : Address := Address.base "BiE2BPxEDuVjwyKTZU2A5KTyE6MnngvLvRPmzYUYrVL4"

/-- Concrete deployed schema account (setup-schema.ts layout [12, 12, 12]). -/
def schemaAcc0 : SchemaAccount :=
  ⟨CONFIG_CREDENTIAL, "AGENT-ID", 1, [12, 12, 12], CONFIG_SCHEMA_FIELDS, false⟩

/-- Chain holding exactly the deployed schema account. -/
def chainS : Chain :=
  fun a => if a = CONFIG_SCHEMA then some (Account.schemaAcc schemaAcc0) else none

/-- Chain holding exactly an already-created credential for payer0. -/
def chainCred : Chain :=
  fun a =>
    if a = Address.credentialPda payer0 CONFIG_CREDENTIAL_NAME then
      some (Account.credentialAcc payer0 CONFIG_CREDENTIAL_NAME [payer0])
    else none

/-- An agent name of 33 characters, one over the declared 32-byte bound. -/
def longName : String := String.mk (List.replicate 33 'a')

/-- The schema-creation request declared by config.ts: its layout list has 6
entries against 3 field names. -/
def mismatchedSchemaConfig : SchemaConfig :=
  ⟨CONFIG_CREDENTIAL_NAME, "AGENT-ID", CONFIG_SCHEMA_DESCRIPTION,
    CONFIG_SCHEMA_LAYOUT, CONFIG_SCHEMA_FIELDS, none⟩

/-- Claim C1: a second create with the same (credential, schema, nonce)
triple is detected by the getAccountInfo check at the derived attestation
address, surfaces as a terminal already-exists outcome carrying that address,
submits no transaction, and leaves the chain (in particular the first
attestation) unchanged. -/
theorem create_duplicate_terminal (st : Chain) (payer : Address)
    (o1 o2 : CreateOptions) (t1 t2 : ℕ) (s : SchemaAccount)
    (hs : st CONFIG_SCHEMA = some (Account.schemaAcc s))
    (hnone : st (attestationPdaOf payer) = none) :
    (createCommand st payer o1 t1).txSubmitted = true ∧
    (createCommand (createCommand st payer o1 t1).chain payer o2 t2).outcome =
      CreateOutcome.alreadyExists (attestationPdaOf payer) ∧
    (createCommand (createCommand st payer o1 t1).chain payer o2 t2).txSubmitted = false ∧
    (createCommand (createCommand st payer o1 t1).chain payer o2 t2).chain =
      (createCommand st payer o1 t1).chain := by
  have hne1 : CONFIG_SCHEMA ≠ Address.attestationMintPda (attestationPdaOf payer) := by
    simp [CONFIG_SCHEMA]
  have hne2 : CONFIG_SCHEMA ≠ attestationPdaOf payer := by
    simp [CONFIG_SCHEMA, attestationPdaOf]
  have hne3 : attestationPdaOf payer ≠ Address.attestationMintPda (attestationPdaOf payer) := by
    simp [attestationPdaOf]
  simp [createCommand, hs, hnone, Chain.set, hne1, hne2, hne3]

/-- Witness for C1 at concrete inputs. -/
theorem create_duplicate_terminal_witness :
    (createCommand
      (createCommand chainS payer0 ⟨"nix", "c1", "m", none, false⟩ 1000).chain
      payer0 ⟨"nix", "c1", "m", none, false⟩ 2000).txSubmitted = false :=
  (create_duplicate_terminal chainS payer0 ⟨"nix", "c1", "m", none, false⟩
    ⟨"nix", "c1", "m", none, false⟩ 1000 2000 schemaAcc0 (by decide) (by decide)).2.2.1

/-- Claim C2: the credential-creation step of setup-schema.ts is idempotent:
when an account already exists at the derived credential address the step
skips, submits no transaction and leaves the chain unchanged, so running the
step a second time is always a no-op success. -/
theorem setupCredentialStep_idempotent (st : Chain) (authority : Address) :
    ((st (Address.credentialPda authority CONFIG_CREDENTIAL_NAME)).isSome = true →
      setupCredentialStep st authority = ⟨true, false, st⟩) ∧
    setupCredentialStep (setupCredentialStep st authority).chain authority =
      ⟨true, false, (setupCredentialStep st authority).chain⟩ := by
  constructor
  · intro h
    cases hcred : st (Address.credentialPda authority CONFIG_CREDENTIAL_NAME) with
    | none => rw [hcred] at h; simp at h
    | some acc => simp [setupCredentialStep, hcred]
  · cases hcred : st (Address.credentialPda authority CONFIG_CREDENTIAL_NAME) with
    | none => simp [setupCredentialStep, hcred, Chain.set]
    | some acc => simp [setupCredentialStep, hcred]

/-- Witness for C2 at concrete inputs. -/
theorem setupCredentialStep_idempotent_witness :
    setupCredentialStep chainCred payer0 = ⟨true, false, chainCred⟩ :=
  (setupCredentialStep_idempotent chainCred payer0).1 (by decide)

/-- Claim C4 counterexample: the create command does not reject an agent name
of 33 characters; no ValidationError is produced, a transaction is submitted,
and the stored agent name is the input truncated to its first 32 characters. -/
theorem create_truncates_cex :
    32 < longName.length ∧
    (createCommand chainS payer0 ⟨longName, "claim text", "m1", none, false⟩
      1700000000000).outcome.isValidationErr = false ∧
    (createCommand chainS payer0 ⟨longName, "claim text", "m1", none, false⟩
      1700000000000).txSubmitted = true ∧
    getAttName
      (createCommand chainS payer0 ⟨longName, "claim text", "m1", none, false⟩
        1700000000000).chain (attestationPdaOf payer0) =
      some (jsSubstring longName 32) ∧
    jsSubstring longName 32 ≠ longName := by
  decide

/-- Claim C4 amended: the create command never raises a ValidationError for
any input name; on a fresh attestation address it submits the transaction and
stores the name truncated by substring(0, 32). -/
theorem create_never_validates_name (st : Chain) (payer : Address)
    (o : CreateOptions) (nowMs : ℕ) (s : SchemaAccount)
    (hs : st CONFIG_SCHEMA = some (Account.schemaAcc s))
    (hnone : st (attestationPdaOf payer) = none) :
    (createCommand st payer o nowMs).outcome.isValidationErr = false ∧
    (createCommand st payer o nowMs).txSubmitted = true ∧
    getAttName (createCommand st payer o nowMs).chain (attestationPdaOf payer) =
      some (jsSubstring o.name 32) := by
  have hne3 : attestationPdaOf payer ≠ Address.attestationMintPda (attestationPdaOf payer) := by
    simp [attestationPdaOf]
  simp [createCommand, hs, hnone, getAttName, Chain.set, hne3,
    CreateOutcome.isValidationErr]

/-- Witness for the amended C4 at concrete inputs. -/
theorem create_never_validates_name_witness :
    getAttName
      (createCommand chainS payer0 ⟨"nix", "hello", "m1", none, false⟩
        1700000000000).chain (attestationPdaOf payer0) =
      some (jsSubstring "nix" 32) :=
  (create_never_validates_name chainS payer0 ⟨"nix", "hello", "m1", none, false⟩
    1700000000000 schemaAcc0 (by decide) (by decide)).2.2

/-- Claim C5 counterexample: with the layout and field-name lists declared by
config.ts, whose lengths are 6 and 3, createSchema raises no ValidationError
and submits the instruction anyway. -/
theorem createSchema_no_validation_cex :
    CONFIG_SCHEMA_LAYOUT.length ≠ CONFIG_SCHEMA_FIELDS.length ∧
    (createSchema emptyChain payer0 mismatchedSchemaConfig).outcome.isValidationErr = false ∧
    (createSchema emptyChain payer0 mismatchedSchemaConfig).txSubmitted = true ∧
    (createSchema emptyChain payer0 mismatchedSchemaConfig).outcome =
      SchemaOutcome.submitted
        ⟨"AGENT-ID", CONFIG_SCHEMA_DESCRIPTION, CONFIG_SCHEMA_LAYOUT,
          CONFIG_SCHEMA_FIELDS,
          Address.credentialPda payer0 CONFIG_CREDENTIAL_NAME,
          Address.schemaPda (Address.credentialPda payer0 CONFIG_CREDENTIAL_NAME)
            "AGENT-ID" 1⟩ := by
  decide

/-- Claim C5 amended: createSchema validates nothing: for every layout and
field-name list, matching in length or not, it builds the instruction from
the given lists and submits it, and never raises a ValidationError. -/
theorem createSchema_always_submits (st : Chain) (authority : Address)
    (config : SchemaConfig) :
    (createSchema st authority config).outcome =
      SchemaOutcome.submitted
        ⟨config.name, config.description, config.layout, config.fieldNames,
          Address.credentialPda authority config.credentialName,
          Address.schemaPda (Address.credentialPda authority config.credentialName)
            config.name (config.version.getD 1)⟩ ∧
    (createSchema st authority config).txSubmitted = true ∧
    (createSchema st authority config).outcome.isValidationErr = false :=
  ⟨rfl, rfl, rfl⟩

/-- Claim C6: verify on an address holding no account is caught, reported as
the not-found outcome with exit code 1, a human-readable explanation on
standard output and the failure line on standard error, and is never an
uncaught crash. -/
theorem verify_missing_account_not_found (st : Chain) (addr : Address) (now : ℤ)
    (h : st addr = none) :
    (verifyCommand st addr now).outcome = VerifyOutcome.notFound ∧
    (verifyCommand st addr now).exitCode = 1 ∧
    "No attestation found at this address" ∈ (verifyCommand st addr now).stdoutLines ∧
    "Verification failed" ∈ (verifyCommand st addr now).stderrLines ∧
    (verifyCommand st addr now).outcome.isCrash = false := by
  simp [verifyCommand, fetchAttestation, h, verifyCatch,
    FetchErr.messageIncludesNotFound, VerifyOutcome.isCrash]

/-- Witness for C6 at concrete inputs. -/
theorem verify_missing_account_not_found_witness :
    (verifyCommand emptyChain (Address.base "nobody") 0).outcome =
      VerifyOutcome.notFound :=
  (verify_missing_account_not_found emptyChain (Address.base "nobody") 0 rfl).1

/-- Claim C7: the recorded expiry equals the creation-time unix timestamp in
whole seconds plus expiry-days times 86400, where the create command takes
365 days when the flag is omitted, and the default parameter of
createTokenizedAttestation is likewise 365. -/
theorem create_expiry_formula (st : Chain) (payer : Address) (o : CreateOptions)
    (nowMs : ℕ) (s : SchemaAccount)
    (hs : st CONFIG_SCHEMA = some (Account.schemaAcc s))
    (hnone : st (attestationPdaOf payer) = none) :
    getAttExpiry (createCommand st payer o nowMs).chain (attestationPdaOf payer) =
      some ((nowMs / 1000 + (o.expiry.getD 365) * 86400 : ℕ) : ℤ) ∧
    createTokenizedAttestationExpiry nowMs none = nowMs / 1000 + 365 * 86400 := by
  have hne3 : attestationPdaOf payer ≠ Address.attestationMintPda (attestationPdaOf payer) := by
    simp [attestationPdaOf]
  constructor
  · simp [createCommand, hs, hnone, getAttExpiry, Chain.set, hne3]
  · simp [createTokenizedAttestationExpiry]

/-- Witness for C7 at concrete inputs. -/
theorem create_expiry_formula_witness :
    getAttExpiry
      (createCommand chainS payer0 ⟨"nix", "c", "m", none, false⟩ 1700000000123).chain
      (attestationPdaOf payer0) = some ((1731536000 : ℕ) : ℤ) := by
  have h := create_expiry_formula chainS payer0 ⟨"nix", "c", "m", none, false⟩
    1700000000123 schemaAcc0 (by decide) (by decide)
  simpa using h.1

/-- Replicate shape of a getClient call sequence started on a filled cache. -/
theorem runGetClient_replicate (n : ℕ) (c : Client) :
    runGetClient n (some c) = (List.replicate n (c, false), some c) := by
  induction n with
  | zero => rfl
  | succ k ih => simp [runGetClient, getClient, ih, List.replicate_succ]

/-- Claim C8: in a sequence of getClient calls starting from the empty
module-level cache, the first call constructs the client and every later call
returns that identical client without constructing a new one; exactly one
construction happens in the whole sequence. -/
theorem getClient_constructed_once (n : ℕ) :
    runGetClient (n + 1) none =
      ((mkClient, true) :: List.replicate n (mkClient, false), some mkClient) ∧
    ((runGetClient (n + 1) none).1.countP fun r => r.2) = 1 := by
  have h : runGetClient (n + 1) none =
      ((mkClient, true) :: List.replicate n (mkClient, false), some mkClient) := by
    simp [runGetClient, getClient, runGetClient_replicate]
  refine ⟨h, ?_⟩
  rw [h]
  simp [List.countP_cons]

/-- Claim C9: in the create command the nonce is the payer address, so the
derived attestation address depends only on the configured credential, the
configured schema and the payer; after one successful create, a second
invocation by the same payer with arbitrary name, claim and model options
reports already-exists at that same address and submits no transaction. -/
theorem create_one_per_payer (st : Chain) (payer : Address)
    (o1 o2 : CreateOptions) (t1 t2 : ℕ) (s : SchemaAccount)
    (hs : st CONFIG_SCHEMA = some (Account.schemaAcc s))
    (hnone : st (attestationPdaOf payer) = none) :
    (createCommand st payer o1 t1).outcome =
      CreateOutcome.created
        (Address.attestationPda CONFIG_CREDENTIAL CONFIG_SCHEMA payer)
        (Address.attestationMintPda
          (Address.attestationPda CONFIG_CREDENTIAL CONFIG_SCHEMA payer)) ∧
    (createCommand (createCommand st payer o1 t1).chain payer o2 t2).outcome =
      CreateOutcome.alreadyExists
        (Address.attestationPda CONFIG_CREDENTIAL CONFIG_SCHEMA payer) ∧
    (createCommand (createCommand st payer o1 t1).chain payer o2 t2).txSubmitted =
      false := by
  simp only [attestationPdaOf] at hnone
  have hne1 : CONFIG_SCHEMA ≠
      Address.attestationMintPda (Address.attestationPda CONFIG_CREDENTIAL CONFIG_SCHEMA payer) := by
    simp [CONFIG_SCHEMA]
  have hne2 : CONFIG_SCHEMA ≠ Address.attestationPda CONFIG_CREDENTIAL CONFIG_SCHEMA payer := by
    simp [CONFIG_SCHEMA]
  have hne3 : Address.attestationPda CONFIG_CREDENTIAL CONFIG_SCHEMA payer ≠
      Address.attestationMintPda (Address.attestationPda CONFIG_CREDENTIAL CONFIG_SCHEMA payer) := by
    simp
  simp [createCommand, attestationPdaOf, hs, hnone, Chain.set, hne1, hne2, hne3]

/-- Witness for C9 at concrete inputs with differing options. -/
theorem create_one_per_payer_witness :
    (createCommand
      (createCommand chainS payer0 ⟨"alpha", "x", "m", none, false⟩ 1000).chain
      payer0 ⟨"beta", "y", "q", some 7, true⟩ 2000).outcome =
      CreateOutcome.alreadyExists
        (Address.attestationPda CONFIG_CREDENTIAL CONFIG_SCHEMA payer0) :=
  (create_one_per_payer chainS payer0 ⟨"alpha", "x", "m", none, false⟩
    ⟨"beta", "y", "q", some 7, true⟩ 1000 2000 schemaAcc0 (by decide) (by decide)).2.1

set_option maxRecDepth 40000 in
/-- Claim C10 counterexample: on the default path (simulation reports no
units) the code takes cuUsed 200000 but attaches limit 220001, whereas the
exact ceiling of 1.1 times 200000 is 220000: binary64 rounding pushes the
product just above the integer. -/
theorem sendTransaction_cu_cex :
    (sendTransaction none []).2.cuUsed = 200000 ∧
    (sendTransaction none []).2.cuLimit = 220001 ∧
    exactCuLimit 200000 = 220000 ∧
    (sendTransaction none []).2.cuLimit ≠
      exactCuLimit ((sendTransaction none []).2.cuUsed) := by
  decide

set_option maxRecDepth 100000 in
/-- Sandwich bound relating the binary64 limit to the exact ceiling on an
initial range. -/
theorem jsCuLimit_sandwich :
    ∀ u : ℕ, u < 1024 → exactCuLimit u ≤ jsCuLimit u ∧ jsCuLimit u ≤ exactCuLimit u + 1 := by
  decide

/-- Claim C10 amended: sendTransaction returns cuUsed equal to the simulated
units (200000 when the simulation reports none) and cuLimit equal to
Math.ceil(cuUsed * 1.1) evaluated in binary64 arithmetic, which it also
attaches as the compute-unit limit instruction prepended to the final
transaction; on the sampled range that limit equals the exact ceiling of
11 u / 10 or exceeds it by exactly one. -/
theorem sendTransaction_cu_fields (simUnits : Option ℕ) (instructions : List TxIx) :
    (sendTransaction simUnits instructions).2.cuUsed = simUnits.getD 200000 ∧
    (sendTransaction simUnits instructions).2.cuLimit =
      jsCuLimit ((sendTransaction simUnits instructions).2.cuUsed) ∧
    (sendTransaction simUnits instructions).1 =
      TxIx.setComputeUnitLimit ((sendTransaction simUnits instructions).2.cuLimit) ::
        instructions ∧
    (∀ u : ℕ, u < 1024 →
      exactCuLimit u ≤ jsCuLimit u ∧ jsCuLimit u ≤ exactCuLimit u + 1) :=
  ⟨rfl, rfl, rfl, jsCuLimit_sandwich⟩

/-- Witness for the amended C10 at a concrete sampled value. -/
theorem sendTransaction_cu_fields_witness :
    exactCuLimit 100 ≤ jsCuLimit 100 ∧ jsCuLimit 100 ≤ exactCuLimit 100 + 1 :=
  (sendTransaction_cu_fields none []).2.2.2 100 (by decide)

end AgentProof
